import Mathlib

/-
Verification of the ban-detection and human-behavior logic of a
Playwright-based scraping template.

The embedding models:
  * src/ban-detector.ts  : BanSignals, detectBanSignals, setupResponseMonitor,
                           isBanned, getBanReason
  * src/human-behavior.ts: randomDelay, humanScroll, humanMouseMove,
                           generateBezierPoints, cubicBezier, applyHumanBehavior
  * src/config.ts        : loadConfig (the humanBehavior.pattern field)
  * src/scraper.ts       : BaseScraper.navigate (session counters)

JavaScript strings become Lean String, numbers become ℚ or ℤ/ℕ with JS
Math.floor and Math.round made explicit, null becomes Option, thrown
exceptions become Except, and Math.random() becomes an explicit stream of
rational samples in [0, 1).
-/

namespace BanTemplate

/-- BanSignals record from src/ban-detector.ts. httpError and blockedUrl are
nullable in the source and become Option here. -/
structure BanSignals where
  captchaDetected : Bool
  httpError : Option Nat
  unexpectedRedirect : Bool
  contentMissing : Bool
  jsChallenge : Bool
  responseTimeMs : Nat
  blockedUrl : Option String
  deriving Repr, DecidableEq

/-- CAPTCHA_SELECTORS constant from src/ban-detector.ts. -/
def CAPTCHA_SELECTORS : List String :=
  ["iframe[src*=\"recaptcha\"]",
   "iframe[src*=\"captcha\"]",
   "iframe[src*=\"hcaptcha\"]",
   "#captcha",
   ".g-recaptcha",
   ".h-captcha",
   "[data-sitekey]"]

/-- JS_CHALLENGE_INDICATORS constant from src/ban-detector.ts. -/
def JS_CHALLENGE_INDICATORS : List String :=
  ["Checking your browser",
   "Please wait",
   "Just a moment",
   "Verify you are human",
   "DDoS protection by"]

/-- BLOCK_PAGE_PATTERNS constant from src/ban-detector.ts. -/
def BLOCK_PAGE_PATTERNS : List String :=
  ["/error", "/block", "/access-denied", "/forbidden"]

/-- Decides whether the character list sub occurs as a prefix of l; helper for
the JavaScript String.prototype.includes model. -/
def charsHasPre : List Char → List Char → Bool
  | [], _ => true
  | _ :: _, [] => false
  | a :: as, b :: bs => a == b && charsHasPre as bs

/-- Decides whether sub occurs as a contiguous sublist of l; helper for the
JavaScript String.prototype.includes model. -/
def charsIncludes : List Char → List Char → Bool
  | [], sub => charsHasPre sub []
  | l@(_ :: bs), sub => charsHasPre sub l || charsIncludes bs sub

/-- Model of the JavaScript call s.includes(sub): substring containment. -/
def strIncludes (s sub : String) : Bool :=
  charsIncludes s.data sub.data

/-- Splits the character list at the first occurrence of sep, returning the
part before and the part after it, or none when sep does not occur. -/
def splitFirst (sep : List Char) : List Char → Option (List Char × List Char)
  | [] => if sep = [] then some ([], []) else none
  | c :: cs =>
    if charsHasPre sep (c :: cs) then some ([], (c :: cs).drop sep.length)
    else
      match splitFirst sep cs with
      | some (pre, post) => some (c :: pre, post)
      | none => none

/-- Takes characters up to, but excluding, the first occurrence of stop. -/
def takeUntil (stop : Char) : List Char → List Char
  | [] => []
  | c :: cs => if c = stop then [] else c :: takeUntil stop cs

/-- Model of the browser URL constructor followed by .hostname, as used by
detectBanSignals. The constructor throws (here: none) when the input has no
scheme separator; on success the hostname is the authority component up to the
first slash, with any port suffix removed. -/
def parseHostname (u : String) : Option String :=
  match splitFirst "://".data u.data with
  | none => none
  | some (scheme, rest) =>
      if scheme = [] ∨ rest = [] then none
      else some (String.mk (takeUntil ':' (takeUntil '/' rest)))

/-- Observable page state consumed by detectBanSignals: which selectors the
page.$ query resolves, the rendered page content, and the current URL. -/
structure PageState where
  selectorsPresent : List String
  content : String
  currentUrl : String
  deriving Repr

/-- Embedding of detectBanSignals from src/ban-detector.ts. The source
evaluates the CAPTCHA, JS-challenge and block-page-pattern channels, then calls
the URL constructor on expectedUrl and on the current URL with no try/catch:
a parse failure propagates as a thrown TypeError, modelled as Except.error.
The elapsed time Date.now() - startTime is passed in as responseTimeMs. -/
def detectBanSignals (ps : PageState) (responseTimeMs : Nat)
    (expectedUrl : String) : Except String BanSignals :=
  let captchaDetected := CAPTCHA_SELECTORS.any (fun sel => ps.selectorsPresent.contains sel)
  let jsChallenge := JS_CHALLENGE_INDICATORS.any (fun ind => strIncludes ps.content ind)
  let currentUrl := ps.currentUrl
  let patternHit := BLOCK_PAGE_PATTERNS.any (fun pat => strIncludes currentUrl pat)
  match parseHostname expectedUrl with
  | none => Except.error "Invalid URL"
  | some expectedDomain =>
    match parseHostname currentUrl with
    | none => Except.error "Invalid URL"
    | some currentDomain =>
      let mismatch := expectedDomain != currentDomain && !(strIncludes currentDomain expectedDomain)
      Except.ok
        { captchaDetected := captchaDetected
          httpError := none
          unexpectedRedirect := patternHit || mismatch
          contentMissing := false
          jsChallenge := jsChallenge
          responseTimeMs := responseTimeMs
          blockedUrl := if patternHit || mismatch then some currentUrl else none }

/-- Blocking status list from setupResponseMonitor in src/ban-detector.ts. -/
def BLOCKING_STATUSES : List Nat := [403, 429, 503, 520, 521, 522, 523, 524]

/-- One response event of the monitor installed by setupResponseMonitor: the
handler overwrites lastHttpError whenever the status is in the blocking list. -/
def monitorStep (lastHttpError : Option Nat) (status : Nat) : Option Nat :=
  if BLOCKING_STATUSES.contains status then some status else lastHttpError

/-- Value of getHttpError after the monitor from setupResponseMonitor has seen
the given statuses in chronological order, starting from null. -/
def getHttpError (statuses : List Nat) : Option Nat :=
  statuses.foldl monitorStep none

/-- Spec-side definition for comparison: the first blocking status code in
chronological order of observation. -/
def firstBlockingStatus (statuses : List Nat) : Option Nat :=
  statuses.find? (fun s => BLOCKING_STATUSES.contains s)

/-- Last blocking status code in chronological order of observation. -/
def lastBlockingStatus (statuses : List Nat) : Option Nat :=
  statuses.reverse.find? (fun s => BLOCKING_STATUSES.contains s)

/-- Embedding of isBanned from src/ban-detector.ts: the logical OR of the
CAPTCHA, HTTP-error, redirect and JS-challenge channels. -/
def isBanned (s : BanSignals) : Bool :=
  s.captchaDetected || s.httpError.isSome || s.unexpectedRedirect || s.jsChallenge

/-- Rendering of the nullable blockedUrl field inside a JavaScript template
literal: null prints as the text null. -/
def optionText : Option String → String
  | none => "null"
  | some u => u

/-- Embedding of getBanReason from src/ban-detector.ts. -/
def getBanReason (s : BanSignals) : Option String :=
  if s.captchaDetected then some "CAPTCHA"
  else
    match s.httpError with
    | some code => some ("HTTP " ++ toString code)
    | none =>
      if s.jsChallenge then some "JS Challenge"
      else if s.unexpectedRedirect then some ("Redirect to " ++ optionText s.blockedUrl)
      else none

/-- BanSignals record of the C6 scenario: HTTP error 403 with every other
channel clear. -/
def sig403 : BanSignals :=
  { captchaDetected := false
    httpError := some 403
    unexpectedRedirect := false
    contentMissing := false
    jsChallenge := false
    responseTimeMs := 0
    blockedUrl := none }

/-- PageState with a well-formed current URL and no ban evidence. -/
def psClean : PageState :=
  { selectorsPresent := []
    content := "item page"
    currentUrl := "https://jp.mercari.com/item/m12345678" }


/-- Mutable per-session counters of BaseScraper in src/scraper.ts that claim
C4 is about. -/
structure SessionState where
  requestCount : Nat
  lastRequestTime : Nat
  deriving Repr, DecidableEq

/-- ScrapeResult value returned by BaseScraper.navigate. -/
structure ScrapeResultV where
  success : Bool
  banSignals : BanSignals
  error : Option String
  deriving Repr, DecidableEq

/-- Outcome of the try block of BaseScraper.navigate: either goto, the
optional behavior simulation and detectBanSignals all complete, yielding the
detected signals, the monitor value and the completion time Date.now(), or
some step throws and control reaches the catch block with the error message
and the elapsed time. -/
inductive NavEvent where
  | success (signals : BanSignals) (monitorHttpError : Option Nat) (now : Nat)
  | failure (errMsg : String) (elapsedMs : Nat)

/-- Embedding of BaseScraper.navigate from src/scraper.ts restricted to its
effect on the session counters and its returned ScrapeResult. On success the
monitor value overwrites banSignals.httpError, requestCount is incremented,
lastRequestTime is set to Date.now(), and the result is a ban failure or a
success according to isBanned. In the catch block a fresh contentMissing
record is built and the counters are left untouched. -/
def navigate (st : SessionState) (ev : NavEvent) : SessionState × ScrapeResultV :=
  match ev with
  | NavEvent.success sig monitorErr now =>
      let signals := { sig with httpError := monitorErr }
      let st1 : SessionState := { requestCount := st.requestCount + 1, lastRequestTime := now }
      if isBanned signals then
        (st1, { success := false, banSignals := signals,
                error := some ("BAN detected: " ++ optionText (getBanReason signals)) })
      else
        (st1, { success := true, banSignals := signals, error := none })
  | NavEvent.failure msg elapsed =>
      (st, { success := false,
             banSignals :=
               { captchaDetected := false, httpError := none,
                 unexpectedRedirect := false, contentMissing := true,
                 jsChallenge := false, responseTimeMs := elapsed,
                 blockedUrl := none },
             error := some msg })

/-- Embedding of the humanBehavior.pattern field computed by loadConfig in
src/config.ts: the raw environment value is type-cast, not validated; the
default B applies only when the variable is unset or is the empty string
(JavaScript falsiness of the or-default). -/
def loadConfigPattern (env : String → Option String) : String :=
  match env "HUMAN_BEHAVIOR_PATTERN" with
  | some s => if s = "" then "B" else s
  | none => "B"

/-- Action atoms of a behavior plan: a timed wait (page.waitForTimeout), a
mouse wheel scroll (page.mouse.wheel) and a pointer move (page.mouse.move,
always called on rounded integer coordinates). -/
inductive Action where
  | wait (ms : ℚ)
  | wheel (dx dy : ℚ)
  | move (x y : Int)
  deriving Repr, DecidableEq

/-- Random source: Math.random() becomes a stream of rational samples indexed
by draw order, and the float expression
Math.sqrt(-2 * Math.log(u1)) * Math.cos(2 * Math.PI * u2) from randomDelay,
being transcendental-valued, is kept as an abstract function of the two
uniform samples. -/
structure RandSrc where
  stream : Nat → ℚ
  normalFn : ℚ → ℚ → ℚ

/-- Model of Math.floor on rationals, via the executable Rat.floor. -/
def jsFloor (q : ℚ) : Int := Rat.floor q

/-- Model of Math.round on rationals: floor of q + 1/2, matching the
JavaScript half-up rounding. -/
def jsRound (q : ℚ) : Int := Rat.floor (q + 1/2)

/-- Mapping of a normal sample into the delay range, from randomDelay in
src/human-behavior.ts: normalized = normal * 0.2 + 0.5, clamped to [0, 1],
then delay = lo + clamped * (hi - lo). -/
def delayFromNormal (lo hi normal : ℚ) : ℚ :=
  let normalized := normal * (2/10) + (5/10)
  let clamped := max 0 (min 1 normalized)
  lo + clamped * (hi - lo)

/-- Embedding of randomDelay from src/human-behavior.ts: draws u1 and u2,
forms the Box-Muller normal, maps it into [lo, hi] and waits the rounded
delay. Every generator returns the emitted actions together with the next
stream index. -/
def randomDelay (src : RandSrc) (lo hi : ℚ) (i : Nat) : List Action × Nat :=
  let u1 := src.stream i
  let u2 := src.stream (i + 1)
  let normal := src.normalFn u1 u2
  ([Action.wait ((jsRound (delayFromNormal lo hi normal) : Int) : ℚ)], i + 2)

/-- Scroll loop body of humanScroll: each iteration draws a magnitude
Math.random() * 300 + 100, wheels down by it and applies randomDelay 300 800. -/
def scrollLoop (src : RandSrc) : Nat → Nat → List Action × Nat
  | 0, i => ([], i)
  | n + 1, i =>
    let amount := src.stream i * 300 + 100
    let dly := randomDelay src 300 800 (i + 1)
    let rest := scrollLoop src n dly.2
    (Action.wheel 0 amount :: (dly.1 ++ rest.1), rest.2)

/-- Embedding of humanScroll from src/human-behavior.ts: scrollCount =
Math.floor(Math.random() * 3) + 2 wheel-down actions with a delay after each,
then, when Math.random() > 0.7, one wheel-up by -(Math.random() * 100 + 50)
followed by randomDelay 200 500. -/
def humanScroll (src : RandSrc) (i : Nat) : List Action × Nat :=
  let r := src.stream i
  let scrollCount := (jsFloor (r * 3)).toNat + 2
  let body := scrollLoop src scrollCount (i + 1)
  let b := src.stream body.2
  if b > 7/10 then
    let c := src.stream (body.2 + 1)
    let back := -(c * 100 + 50)
    let dly2 := randomDelay src 200 500 (body.2 + 2)
    (body.1 ++ Action.wheel 0 back :: dly2.1, dly2.2)
  else (body.1, body.2 + 1)

/-- Embedding of cubicBezier from src/human-behavior.ts. -/
def cubicBezier (t p0 p1 p2 p3 : ℚ) : ℚ :=
  let t2 := t * t
  let t3 := t2 * t
  let mt := 1 - t
  let mt2 := mt * mt
  let mt3 := mt2 * mt
  mt3 * p0 + 3 * mt2 * t * p1 + 3 * mt * t2 * p2 + t3 * p3

/-- Integer point produced by generateBezierPoints after Math.round. -/
structure Pt where
  x : Int
  y : Int
  deriving Repr, DecidableEq

/-- Sampling loop of generateBezierPoints: for i in 0..steps the curve point
at parameter t = i / steps, with both coordinates passed through Math.round. -/
def bezierSample (sx sy ex ey c1x c1y c2x c2y : ℚ) (steps : Nat) : List Pt :=
  (List.range (steps + 1)).map fun (i : Nat) =>
    let t : ℚ := (i : ℚ) / (steps : ℚ)
    { x := jsRound (cubicBezier t sx c1x c2x ex)
      y := jsRound (cubicBezier t sy c1y c2y ey) }

/-- Embedding of generateBezierPoints from src/human-behavior.ts: the two
control points are offset from fixed fractions of the straight path by
(Math.random() - 0.5) * 100 perturbations, then the curve is sampled into
steps + 1 rounded points. -/
def generateBezierPoints (src : RandSrc) (sx sy ex ey : ℚ) (steps : Nat)
    (i : Nat) : List Pt × Nat :=
  let c1x := sx + (ex - sx) * (3/10) + (src.stream i - 1/2) * 100
  let c1y := sy + (ey - sy) * (1/10) + (src.stream (i + 1) - 1/2) * 100
  let c2x := sx + (ex - sx) * (7/10) + (src.stream (i + 2) - 1/2) * 100
  let c2y := sy + (ey - sy) * (9/10) + (src.stream (i + 3) - 1/2) * 100
  (bezierSample sx sy ex ey c1x c1y c2x c2y steps, i + 4)

/-- Per-point loop of humanMouseMove: mouse.move to each sampled point
followed by waitForTimeout(Math.random() * 30 + 10). -/
def moveLoop (src : RandSrc) : List Pt → Nat → List Action × Nat
  | [], i => ([], i)
  | p :: ps, i =>
    let w := src.stream i * 30 + 10
    let rest := moveLoop src ps (i + 1)
    (Action.move p.x p.y :: Action.wait w :: rest.1, rest.2)

/-- Viewport dimensions returned by page.viewportSize(). -/
structure Viewport where
  width : ℚ
  height : ℚ
  deriving Repr, DecidableEq

/-- Embedding of humanMouseMove from src/human-behavior.ts: returns
immediately when the page has no viewport; otherwise draws a random start in
the upper-left viewport quarter, draws steps = Math.floor(Math.random() * 20)
+ 10, generates the Bezier points and replays them with short pauses. -/
def humanMouseMove (src : RandSrc) (viewport : Option Viewport) (tx ty : ℚ)
    (i : Nat) : List Action × Nat :=
  match viewport with
  | none => ([], i)
  | some vp =>
    let sx := src.stream i * vp.width * (1/2)
    let sy := src.stream (i + 1) * vp.height * (1/2)
    let steps := (jsFloor (src.stream (i + 2) * 20)).toNat + 10
    let pts := generateBezierPoints src sx sy tx ty steps (i + 3)
    moveLoop src pts.1 pts.2

/-- Bounding box returned by elementHandle.boundingBox(). -/
structure Rect where
  x : ℚ
  y : ℚ
  width : ℚ
  height : ℚ
  deriving Repr, DecidableEq

/-- Page environment for applyHumanBehavior: the viewport (possibly absent)
and the bounding boxes of the anchor elements found by the page query for a,
where an element whose boundingBox() call returns null is a none entry. -/
structure PageEnv where
  viewport : Option Viewport
  links : List (Option Rect)
  deriving Repr, DecidableEq

/-- Embedding of applyHumanBehavior from src/human-behavior.ts. Pattern A
waits a fixed 2000 ms; pattern B is randomDelay minDelay maxDelay, then
humanScroll, then randomDelay 500 1500; pattern C is randomDelay, a pointer
move to a random central viewport point when a viewport exists, humanScroll,
randomDelay 1000 3000 and, when Math.random() > 0.5 and the page has anchors,
a hover move to the centre of a random anchor box followed by randomDelay
200 500. The switch has no default case: any other pattern string produces no
actions at all. -/
def applyHumanBehavior (src : RandSrc) (env : PageEnv) (pattern : String)
    (minDelay maxDelay : ℚ) (i : Nat) : List Action × Nat :=
  if pattern = "A" then ([Action.wait 2000], i)
  else if pattern = "B" then
    let d1 := randomDelay src minDelay maxDelay i
    let s := humanScroll src d1.2
    let d2 := randomDelay src 500 1500 s.2
    (d1.1 ++ s.1 ++ d2.1, d2.2)
  else if pattern = "C" then
    let d1 := randomDelay src minDelay maxDelay i
    let mv :=
      match env.viewport with
      | some vp =>
        let tx := src.stream d1.2 * vp.width * (8/10) + vp.width * (1/10)
        let ty := src.stream (d1.2 + 1) * vp.height * (8/10) + vp.height * (1/10)
        humanMouseMove src env.viewport tx ty (d1.2 + 2)
      | none => ([], d1.2)
    let s := humanScroll src mv.2
    let d2 := randomDelay src 1000 3000 s.2
    let hov :=
      let h := src.stream d2.2
      if h > 1/2 then
        if env.links.length > 0 then
          let li := src.stream (d2.2 + 1)
          let idx := (jsFloor (li * (env.links.length : ℚ))).toNat
          match env.links.getD idx none with
          | some box =>
            let mv2 := humanMouseMove src env.viewport (box.x + box.width / 2)
                (box.y + box.height / 2) (d2.2 + 2)
            let d3 := randomDelay src 200 500 mv2.2
            (mv2.1 ++ d3.1, d3.2)
          | none => ([], d2.2 + 2)
        else ([], d2.2 + 1)
      else ([], d2.2 + 1)
    (d1.1 ++ mv.1 ++ s.1 ++ d2.1 ++ hov.1, hov.2)
  else ([], i)

/-- Number of pointer-move actions in a plan. -/
def countMoves (l : List Action) : Nat :=
  l.countP fun a => match a with | Action.move _ _ => true | _ => false

/-- Number of downward (positive-magnitude) wheel actions in a plan. -/
def countScrollsDown (l : List Action) : Nat :=
  l.countP fun a => match a with | Action.wheel _ dy => decide (0 < dy) | _ => false

/-- Number of upward (negative-magnitude) wheel actions in a plan. -/
def countScrollsUp (l : List Action) : Nat :=
  l.countP fun a => match a with | Action.wheel _ dy => decide (dy < 0) | _ => false

/-- Deterministic random source for concrete evaluations: every uniform draw
is 0 and the abstract normal value is 0. -/
def srcZero : RandSrc := { stream := fun _ => 0, normalFn := fun _ _ => 0 }

/-- Page environment with no viewport and no anchor elements. -/
def envNoViewport : PageEnv := { viewport := none, links := [] }

/-- Environment map that sets HUMAN_BEHAVIOR_PATTERN to the unrecognized
identifier X and leaves every other variable unset. -/
def envPatternX : String → Option String :=
  fun k => if k = "HUMAN_BEHAVIOR_PATTERN" then some "X" else none

/-- Contract of Math.random(): every draw of the stream lies in [0, 1). -/
def UnitRange (src : RandSrc) : Prop :=
  ∀ j, 0 ≤ src.stream j ∧ src.stream j < 1

/-- Deterministic random source whose every uniform draw is one half. -/
def srcHalf : RandSrc := { stream := fun _ => 1/2, normalFn := fun _ _ => 0 }

end BanTemplate

namespace BanTemplate

/-- Helper: the executable floor agrees with the order-theoretic floor. -/
theorem jsFloor_eq_floor (q : ℚ) : jsFloor q = ⌊q⌋ := by
  rw [jsFloor, Rat.floor_def', Rat.floor_def]

/-- Helper: jsRound is the order-theoretic floor of q + 1/2. -/
theorem jsRound_eq_floor (q : ℚ) : jsRound q = ⌊q + 1/2⌋ := by
  rw [jsRound, Rat.floor_def', Rat.floor_def]

/-- Helper: folding the monitor from any accumulator yields the last blocking
status when one exists and the accumulator otherwise. -/
theorem foldl_monitorStep (l : List Nat) (acc : Option Nat) :
    l.foldl monitorStep acc =
      (l.reverse.find? (fun s => BLOCKING_STATUSES.contains s)).or acc := by
  induction l generalizing acc with
  | nil => simp
  | cons x xs ih =>
      simp only [List.foldl_cons, List.reverse_cons, List.find?_append, ih]
      cases hfind : xs.reverse.find? (fun s => BLOCKING_STATUSES.contains s) with
      | some y => simp [Option.or]
      | none =>
          simp only [Option.or, monitorStep, List.find?, List.contains, List.elem_eq_mem]
          by_cases hx : x ∈ BLOCKING_STATUSES <;> simp [hx]

end BanTemplate

namespace BanTemplate

/-- C1: isBanned is true exactly when one of the CAPTCHA, HTTP-error, redirect
or JS-challenge channels is triggered, and the contentMissing field has no
influence on the verdict; in particular, when all four channels are clear the
verdict is not banned regardless of content extraction. -/
theorem c1_isBanned_or_of_four_channels (s : BanSignals) (b : Bool) :
    (isBanned s = true ↔
      (s.captchaDetected = true ∨ s.httpError.isSome = true ∨
       s.unexpectedRedirect = true ∨ s.jsChallenge = true)) ∧
    isBanned { s with contentMissing := b } = isBanned s := by
  refine ⟨?_, rfl⟩
  obtain ⟨cap, err, red, cm, js, t, bu⟩ := s
  cases cap <;> cases err <;> cases red <;> cases js <;> simp [isBanned]

/-- C10: getBanReason returns null exactly on the records that isBanned
classifies as not banned. -/
theorem c10_getBanReason_none_iff_not_banned (s : BanSignals) :
    getBanReason s = none ↔ isBanned s = false := by
  obtain ⟨cap, err, red, cm, js, t, bu⟩ := s
  cases cap <;> cases js <;> cases red <;> cases err <;>
    simp [getBanReason, isBanned]

end BanTemplate

namespace BanTemplate

/-- C2 counterexample: when the blocking statuses 403 then 429 are observed in
that chronological order, the monitor reports 429 — the last blocking status —
whereas the claim predicts the first one, 403. -/
theorem c2_counterexample_last_not_first :
    getHttpError [403, 429] = some 429 ∧
    firstBlockingStatus [403, 429] = some 403 ∧
    getHttpError [403, 429] ≠ firstBlockingStatus [403, 429] := by
  refine ⟨rfl, rfl, ?_⟩
  decide

/-- C2 amended: the monitor variable lastHttpError is overwritten on every
blocking response, so getHttpError reports the LAST blocking status observed
in chronological order (and null when no blocking status was observed). -/
theorem c2_getHttpError_eq_last_blocking (statuses : List Nat) :
    getHttpError statuses = lastBlockingStatus statuses := by
  unfold getHttpError lastBlockingStatus
  rw [foldl_monitorStep]
  cases statuses.reverse.find? (fun s => BLOCKING_STATUSES.contains s) <;> rfl

/-- C6 counterexample: for the evidence with httpError 403 and every other
channel false the verdict is banned, but the reported reason is the string
HTTP 403, not the string HTTP error predicted by the claim. -/
theorem c6_counterexample_reason_string :
    isBanned sig403 = true ∧
    getBanReason sig403 = some "HTTP 403" ∧
    getBanReason sig403 ≠ some "HTTP error" := by
  refine ⟨rfl, rfl, ?_⟩
  decide

/-- C6 amended: getBanReason follows the fixed priority order CAPTCHA, then
HTTP error, then JS challenge, then redirect — the first triggered channel in
that order determines the reason — and for httpError 403 with all other
channels false the verdict is banned with reason HTTP 403 (the reason string
carries the status code). -/
theorem c6_getBanReason_priority (s : BanSignals) :
    (s.captchaDetected = true → getBanReason s = some "CAPTCHA") ∧
    (∀ code, s.captchaDetected = false → s.httpError = some code →
        getBanReason s = some ("HTTP " ++ toString code)) ∧
    (s.captchaDetected = false → s.httpError = none → s.jsChallenge = true →
        getBanReason s = some "JS Challenge") ∧
    (s.captchaDetected = false → s.httpError = none → s.jsChallenge = false →
        s.unexpectedRedirect = true →
        getBanReason s = some ("Redirect to " ++ optionText s.blockedUrl)) ∧
    (isBanned sig403 = true ∧ getBanReason sig403 = some "HTTP 403") := by
  refine ⟨?_, ?_, ?_, ?_, rfl, rfl⟩
  · intro h; simp [getBanReason, h]
  · intro code hc he; simp [getBanReason, hc, he]
  · intro hc he hj; simp [getBanReason, hc, he, hj]
  · intro hc he hj hr; simp [getBanReason, hc, he, hj, hr]

/-- C6 witness: the priority theorem applied at concrete records — a
CAPTCHA-flagged record reports CAPTCHA, and the 403 record reports HTTP 403. -/
theorem c6_getBanReason_priority_witness :
    getBanReason
      { captchaDetected := true, httpError := some 403, unexpectedRedirect := true,
        contentMissing := true, jsChallenge := true, responseTimeMs := 5,
        blockedUrl := some "https://jp.mercari.com/error" } = some "CAPTCHA" ∧
    getBanReason sig403 = some ("HTTP " ++ toString 403) :=
  ⟨(c6_getBanReason_priority _).1 rfl,
   (c6_getBanReason_priority sig403).2.1 403 rfl rfl⟩

/-- C3 counterexample: detectBanSignals throws. With a perfectly healthy page
state whose current URL parses fine, passing a malformed expectedUrl reaches
the URL constructor outside any try/catch and the whole evaluation aborts with
an error instead of degrading the domain-mismatch channel to not-triggered. -/
theorem c3_counterexample_throws_on_malformed_url :
    parseHostname psClean.currentUrl = some "jp.mercari.com" ∧
    detectBanSignals psClean 0 "not-a-url" = Except.error "Invalid URL" := by
  constructor <;> rfl

/-- C3 amended: detectBanSignals fails exactly when the expected URL or the
current URL has no parseable hostname; whenever both parse, every channel is
evaluated and a fully populated BanSignals record is returned. -/
theorem c3_detect_fails_iff_url_unparseable (ps : PageState) (t : Nat) (u : String) :
    (detectBanSignals ps t u).isOk = false ↔
      (parseHostname u = none ∨ parseHostname ps.currentUrl = none) := by
  cases hu : parseHostname u with
  | none => simp [detectBanSignals, hu, Except.isOk, Except.toBool]
  | some d1 =>
    cases hc : parseHostname ps.currentUrl with
    | none => simp [detectBanSignals, hu, hc, Except.isOk, Except.toBool]
    | some d2 => simp [detectBanSignals, hu, hc, Except.isOk, Except.toBool]

end BanTemplate

namespace BanTemplate

/-- C4 counterexample: a visit whose navigation throws a transport-level error
reaches the catch block of navigate, which never touches the session counters:
requestCount stays at 0 instead of increasing by 1, and lastRequestTime keeps
its previous value. -/
theorem c4_counterexample_failure_skips_counters :
    (navigate { requestCount := 0, lastRequestTime := 0 }
        (NavEvent.failure "net::ERR_CONNECTION_REFUSED" 120)).1.requestCount = 0 ∧
    (navigate { requestCount := 0, lastRequestTime := 0 }
        (NavEvent.failure "net::ERR_CONNECTION_REFUSED" 120)).1.requestCount ≠ 0 + 1 ∧
    (navigate { requestCount := 5, lastRequestTime := 77 }
        (NavEvent.failure "Timeout 30000ms exceeded" 30000)).1.lastRequestTime = 77 := by
  refine ⟨rfl, ?_, rfl⟩
  decide

/-- C4 amended: requestCount increases by exactly 1 and lastRequestTime is
updated on every visit whose navigation and detection complete without
throwing, whether or not the visit is classified as banned; a visit failing
with a transport-level error leaves both counters unchanged; in every case
requestCount never decreases and increases by at most 1. -/
theorem c4_requestCount_increment_on_completed_visits (st : SessionState) :
    (∀ sig me now,
        (navigate st (NavEvent.success sig me now)).1.requestCount = st.requestCount + 1 ∧
        (navigate st (NavEvent.success sig me now)).1.lastRequestTime = now) ∧
    (∀ msg el, (navigate st (NavEvent.failure msg el)).1 = st) ∧
    (∀ ev, st.requestCount ≤ (navigate st ev).1.requestCount ∧
        (navigate st ev).1.requestCount ≤ st.requestCount + 1) := by
  refine ⟨?_, ?_, ?_⟩
  · intro sig me now
    cases h : isBanned { sig with httpError := me } <;> simp [navigate, h]
  · intro msg el
    rfl
  · intro ev
    cases ev with
    | success sig me now =>
        cases h : isBanned { sig with httpError := me } <;> simp [navigate, h]
    | failure msg el => simp [navigate]

/-- C5 counterexample: with HUMAN_BEHAVIOR_PATTERN set to the unrecognized
identifier X, session setup completes with no error and keeps the value
verbatim, and at visit time applyHumanBehavior matches no case of its switch
and performs no actions — the misconfiguration is silently accepted instead of
being surfaced fatally at setup. -/
theorem c5_counterexample_unknown_pattern_accepted :
    loadConfigPattern envPatternX = "X" ∧
    loadConfigPattern envPatternX ≠ "A" ∧
    loadConfigPattern envPatternX ≠ "B" ∧
    loadConfigPattern envPatternX ≠ "C" ∧
    (applyHumanBehavior srcZero envNoViewport (loadConfigPattern envPatternX)
        1000 5000 0).1 = [] := by
  refine ⟨rfl, ?_, ?_, ?_, rfl⟩ <;> decide

/-- C5 amended: an unrecognized pattern identifier is not rejected at session
setup — loadConfig keeps any non-empty HUMAN_BEHAVIOR_PATTERN value verbatim
and defaults to B only when the variable is unset or empty — and at visit time
applyHumanBehavior silently performs no actions for any pattern outside
A, B, C. -/
theorem c5_unknown_pattern_silently_ignored :
    (∀ (env : String → Option String) (s : String),
        env "HUMAN_BEHAVIOR_PATTERN" = some s → s ≠ "" →
        loadConfigPattern env = s) ∧
    (∀ env : String → Option String,
        env "HUMAN_BEHAVIOR_PATTERN" = none → loadConfigPattern env = "B") ∧
    (∀ (src : RandSrc) (penv : PageEnv) (p : String) (lo hi : ℚ) (i : Nat),
        p ≠ "A" → p ≠ "B" → p ≠ "C" →
        applyHumanBehavior src penv p lo hi i = ([], i)) := by
  refine ⟨?_, ?_, ?_⟩
  · intro env s h hne
    simp [loadConfigPattern, h, hne]
  · intro env h
    simp [loadConfigPattern, h]
  · intro src penv p lo hi i hA hB hC
    simp [applyHumanBehavior, hA, hB, hC]

/-- C5 witness: the amended theorem applied to the concrete environment with
pattern X and to the empty plan it yields at visit time. -/
theorem c5_unknown_pattern_witness :
    loadConfigPattern envPatternX = "X" ∧
    applyHumanBehavior srcZero envNoViewport "X" 1000 5000 0 = ([], 0) :=
  ⟨c5_unknown_pattern_silently_ignored.1 envPatternX "X" rfl (by decide),
   c5_unknown_pattern_silently_ignored.2.2 srcZero envNoViewport "X" 1000 5000 0
     (by decide) (by decide) (by decide)⟩

end BanTemplate

namespace BanTemplate

/-- Helper: a randomDelay plan contains no pointer moves. -/
theorem countMoves_randomDelay (src : RandSrc) (lo hi : ℚ) (i : Nat) :
    countMoves (randomDelay src lo hi i).1 = 0 := by
  simp [randomDelay, countMoves]

/-- Helper: a randomDelay plan contains no downward wheel actions. -/
theorem countScrollsDown_randomDelay (src : RandSrc) (lo hi : ℚ) (i : Nat) :
    countScrollsDown (randomDelay src lo hi i).1 = 0 := by
  simp [randomDelay, countScrollsDown]

/-- Helper: a randomDelay plan contains no upward wheel actions. -/
theorem countScrollsUp_randomDelay (src : RandSrc) (lo hi : ℚ) (i : Nat) :
    countScrollsUp (randomDelay src lo hi i).1 = 0 := by
  simp [randomDelay, countScrollsUp]

/-- Helper: the scroll loop contains no pointer moves. -/
theorem countMoves_scrollLoop (src : RandSrc) :
    ∀ (n i : Nat), countMoves (scrollLoop src n i).1 = 0 := by
  intro n
  induction n with
  | zero => intro i; simp [scrollLoop, countMoves]
  | succ n ih =>
      intro i
      have h1 := countMoves_randomDelay src 300 800 (i + 1)
      have h2 := ih (randomDelay src 300 800 (i + 1)).2
      simp only [scrollLoop, countMoves, List.countP_cons, List.countP_append] at h1 h2 ⊢
      simp [h1, h2]

end BanTemplate

namespace BanTemplate

/-- Helper: a uniform draw times 300 plus 100 is positive. -/
theorem scrollAmount_pos (src : RandSrc) (h : UnitRange src) (j : Nat) :
    (0 : ℚ) < src.stream j * 300 + 100 := by
  have h0 := (h j).1
  nlinarith

/-- Helper: with uniform draws in range, the scroll loop performs exactly one
downward wheel action per iteration. -/
theorem countScrollsDown_scrollLoop (src : RandSrc) (h : UnitRange src) :
    ∀ (n i : Nat), countScrollsDown (scrollLoop src n i).1 = n := by
  intro n
  induction n with
  | zero => intro i; simp [scrollLoop, countScrollsDown]
  | succ n ih =>
      intro i
      have h1 := countScrollsDown_randomDelay src 300 800 (i + 1)
      have h2 := ih (randomDelay src 300 800 (i + 1)).2
      have hpos := scrollAmount_pos src h i
      simp only [scrollLoop, countScrollsDown, List.countP_cons, List.countP_append]
        at h1 h2 ⊢
      simp [h1, h2, hpos]

/-- Helper: with uniform draws in range, the scroll loop performs no upward
wheel action. -/
theorem countScrollsUp_scrollLoop (src : RandSrc) (h : UnitRange src) :
    ∀ (n i : Nat), countScrollsUp (scrollLoop src n i).1 = 0 := by
  intro n
  induction n with
  | zero => intro i; simp [scrollLoop, countScrollsUp]
  | succ n ih =>
      intro i
      have h1 := countScrollsUp_randomDelay src 300 800 (i + 1)
      have h2 := ih (randomDelay src 300 800 (i + 1)).2
      have hpos := scrollAmount_pos src h i
      have hnonneg : ¬ (src.stream i * 300 + 100 < (0 : ℚ)) := not_lt.2 (le_of_lt hpos)
      simp only [scrollLoop, countScrollsUp, List.countP_cons, List.countP_append]
        at h1 h2 ⊢
      simp [h1, h2, hnonneg]

/-- Helper: a humanScroll plan contains no pointer moves. -/
theorem countMoves_humanScroll (src : RandSrc) (i : Nat) :
    countMoves (humanScroll src i).1 = 0 := by
  have hb := countMoves_scrollLoop src ((jsFloor (src.stream i * 3)).toNat + 2) (i + 1)
  by_cases hc : src.stream (scrollLoop src ((jsFloor (src.stream i * 3)).toNat + 2) (i + 1)).2 > 7/10
  · have hd := countMoves_randomDelay src 200 500
      ((scrollLoop src ((jsFloor (src.stream i * 3)).toNat + 2) (i + 1)).2 + 2)
    simp only [humanScroll, countMoves, List.countP_cons, List.countP_append] at hb hd ⊢
    simp [hc, hb, hd]
  · simp only [humanScroll, countMoves, List.countP_append] at hb ⊢
    simp [hc, hb]

/-- Helper: with uniform draws in range the number of downward wheel actions
of a humanScroll plan is Math.floor(r * 3) + 2 for the first draw r, hence
between 2 and 4. -/
theorem countScrollsDown_humanScroll (src : RandSrc) (h : UnitRange src) (i : Nat) :
    2 ≤ countScrollsDown (humanScroll src i).1 ∧
    countScrollsDown (humanScroll src i).1 ≤ 4 := by
  have hcount : (jsFloor (src.stream i * 3)).toNat ≤ 2 := by
    rw [Int.toNat_le]
    have hlt : src.stream i * 3 < 3 := by nlinarith [(h i).2]
    have : jsFloor (src.stream i * 3) < 3 := by
      rw [jsFloor_eq_floor]
      exact Int.floor_lt.2 (by exact_mod_cast hlt)
    omega
  have hb := countScrollsDown_scrollLoop src h ((jsFloor (src.stream i * 3)).toNat + 2) (i + 1)
  by_cases hc : src.stream (scrollLoop src ((jsFloor (src.stream i * 3)).toNat + 2) (i + 1)).2 > 7/10
  · have hneg : ¬ ((0 : ℚ) < -50 + -(src.stream ((scrollLoop src ((jsFloor (src.stream i * 3)).toNat + 2) (i + 1)).2 + 1) * 100)) := by
      have h0 := (h ((scrollLoop src ((jsFloor (src.stream i * 3)).toNat + 2) (i + 1)).2 + 1)).1
      intro hx
      nlinarith
    have hd := countScrollsDown_randomDelay src 200 500
      ((scrollLoop src ((jsFloor (src.stream i * 3)).toNat + 2) (i + 1)).2 + 2)
    simp only [humanScroll, countScrollsDown, List.countP_cons, List.countP_append] at hb hd ⊢
    simp [hc, hb, hd, hneg]
    omega
  · simp only [humanScroll, countScrollsDown, List.countP_append] at hb ⊢
    simp [hc, hb]
    omega

/-- Helper: with uniform draws in range a humanScroll plan contains at most
one upward wheel action (the optional reverse scroll). -/
theorem countScrollsUp_humanScroll (src : RandSrc) (h : UnitRange src) (i : Nat) :
    countScrollsUp (humanScroll src i).1 ≤ 1 := by
  have hb := countScrollsUp_scrollLoop src h ((jsFloor (src.stream i * 3)).toNat + 2) (i + 1)
  by_cases hc : src.stream (scrollLoop src ((jsFloor (src.stream i * 3)).toNat + 2) (i + 1)).2 > 7/10
  · have hd := countScrollsUp_randomDelay src 200 500
      ((scrollLoop src ((jsFloor (src.stream i * 3)).toNat + 2) (i + 1)).2 + 2)
    simp only [humanScroll, countScrollsUp, List.countP_cons, List.countP_append] at hb hd ⊢
    simp [hc, hb, hd, List.countP_cons]
    first
    | omega
    | split <;> omega
  · simp only [humanScroll, countScrollsUp, List.countP_append] at hb ⊢
    simp [hc, hb]

end BanTemplate

namespace BanTemplate

/-- Helper: the move loop emits exactly one pointer move per point. -/
theorem countMoves_moveLoop (src : RandSrc) :
    ∀ (pts : List Pt) (i : Nat), countMoves (moveLoop src pts i).1 = pts.length := by
  intro pts
  induction pts with
  | nil => intro i; simp [moveLoop, countMoves]
  | cons p ps ih =>
      intro i
      have h2 := ih (i + 1)
      simp only [moveLoop, countMoves, List.countP_cons] at h2 ⊢
      simp [h2]

/-- Helper: the move loop emits no downward wheel action. -/
theorem countScrollsDown_moveLoop (src : RandSrc) :
    ∀ (pts : List Pt) (i : Nat), countScrollsDown (moveLoop src pts i).1 = 0 := by
  intro pts
  induction pts with
  | nil => intro i; simp [moveLoop, countScrollsDown]
  | cons p ps ih =>
      intro i
      have h2 := ih (i + 1)
      simp only [moveLoop, countScrollsDown, List.countP_cons] at h2 ⊢
      simp [h2]

/-- Helper: the move loop emits no upward wheel action. -/
theorem countScrollsUp_moveLoop (src : RandSrc) :
    ∀ (pts : List Pt) (i : Nat), countScrollsUp (moveLoop src pts i).1 = 0 := by
  intro pts
  induction pts with
  | nil => intro i; simp [moveLoop, countScrollsUp]
  | cons p ps ih =>
      intro i
      have h2 := ih (i + 1)
      simp only [moveLoop, countScrollsUp, List.countP_cons] at h2 ⊢
      simp [h2]

/-- Helper: the Bezier sampler produces steps + 1 points. -/
theorem bezierSample_length (sx sy ex ey c1x c1y c2x c2y : ℚ) (steps : Nat) :
    (bezierSample sx sy ex ey c1x c1y c2x c2y steps).length = steps + 1 := by
  unfold bezierSample
  rw [List.length_map, List.length_range]

/-- Helper: a humanMouseMove plan contains no wheel actions, contains no
pointer move when the page has no viewport, and contains at least 11 pointer
moves (one per sampled Bezier point, steps being at least 10) when a viewport
is present. -/
theorem humanMouseMove_counts (src : RandSrc) (vpo : Option Viewport)
    (tx ty : ℚ) (i : Nat) :
    countScrollsDown (humanMouseMove src vpo tx ty i).1 = 0 ∧
    countScrollsUp (humanMouseMove src vpo tx ty i).1 = 0 ∧
    (vpo = none → countMoves (humanMouseMove src vpo tx ty i).1 = 0) ∧
    (∀ vp, vpo = some vp → 11 ≤ countMoves (humanMouseMove src vpo tx ty i).1) := by
  cases vpo with
  | none =>
      refine ⟨?_, ?_, ?_, ?_⟩
      · simp [humanMouseMove, countScrollsDown]
      · simp [humanMouseMove, countScrollsUp]
      · intro h0
        simp [humanMouseMove, countMoves]
      · intro vp hvp
        cases hvp
  | some vp =>
      refine ⟨?_, ?_, ?_, ?_⟩
      · simp only [humanMouseMove]
        exact countScrollsDown_moveLoop src _ _
      · simp only [humanMouseMove]
        exact countScrollsUp_moveLoop src _ _
      · intro hno
        cases hno
      · intro vp2 hvp
        simp only [humanMouseMove]
        rw [countMoves_moveLoop src _ _]
        have hlen : (generateBezierPoints src
            (src.stream i * vp.width * (1/2)) (src.stream (i+1) * vp.height * (1/2))
            tx ty ((jsFloor (src.stream (i+2) * 20)).toNat + 10) (i+3)).1.length =
            (jsFloor (src.stream (i+2) * 20)).toNat + 10 + 1 := by
          simp only [generateBezierPoints]
          rw [bezierSample_length]
        rw [hlen]
        omega

end BanTemplate

namespace BanTemplate

/-- Helper: countMoves distributes over plan concatenation. -/
theorem countMoves_append (l1 l2 : List Action) :
    countMoves (l1 ++ l2) = countMoves l1 + countMoves l2 :=
  List.countP_append _ _ _

/-- Helper: countScrollsDown distributes over plan concatenation. -/
theorem countScrollsDown_append (l1 l2 : List Action) :
    countScrollsDown (l1 ++ l2) = countScrollsDown l1 + countScrollsDown l2 :=
  List.countP_append _ _ _

/-- Helper: countScrollsUp distributes over plan concatenation. -/
theorem countScrollsUp_append (l1 l2 : List Action) :
    countScrollsUp (l1 ++ l2) = countScrollsUp l1 + countScrollsUp l2 :=
  List.countP_append _ _ _

/-- Helper: a humanMouseMove plan on a page without viewport is empty. -/
theorem countMoves_humanMouseMove_none (src : RandSrc) (tx ty : ℚ) (k : Nat) :
    countMoves (humanMouseMove src none tx ty k).1 = 0 := by
  simp [humanMouseMove, countMoves]

/-- Helper: a humanMouseMove plan contains no downward wheel action. -/
theorem countScrollsDown_humanMouseMove (src : RandSrc) (vpo : Option Viewport)
    (tx ty : ℚ) (k : Nat) :
    countScrollsDown (humanMouseMove src vpo tx ty k).1 = 0 :=
  (humanMouseMove_counts src vpo tx ty k).1

/-- Helper: a humanMouseMove plan contains no upward wheel action. -/
theorem countScrollsUp_humanMouseMove (src : RandSrc) (vpo : Option Viewport)
    (tx ty : ℚ) (k : Nat) :
    countScrollsUp (humanMouseMove src vpo tx ty k).1 = 0 :=
  (humanMouseMove_counts src vpo tx ty k).2.1

/-- Helper: a humanMouseMove plan on a page with a viewport contains at least
one pointer move. -/
theorem countMoves_humanMouseMove_some_pos (src : RandSrc) (vp : Viewport)
    (tx ty : ℚ) (k : Nat) :
    1 ≤ countMoves (humanMouseMove src (some vp) tx ty k).1 :=
  le_trans (by norm_num)
    ((humanMouseMove_counts src (some vp) tx ty k).2.2.2 vp rfl)

end BanTemplate

namespace BanTemplate

/-- Helper: the empty plan has no pointer moves. -/
theorem countMoves_nil : countMoves [] = 0 := rfl

/-- Helper: the empty plan has no downward wheel actions. -/
theorem countScrollsDown_nil : countScrollsDown [] = 0 := rfl

/-- Helper: the empty plan has no upward wheel actions. -/
theorem countScrollsUp_nil : countScrollsUp [] = 0 := rfl

/-- C7 counterexample: on a page that reports no viewport, the Advanced plan
contains zero pointer moves, falsifying the claim that every Advanced plan has
at least one pointer move for every viewport state. The downward scroll count
here is 2, inside the claimed range. -/
theorem c7_counterexample_no_viewport_no_pointer_move :
    countMoves (applyHumanBehavior srcZero envNoViewport "C" 1000 5000 0).1 = 0 ∧
    ¬ (1 ≤ countMoves (applyHumanBehavior srcZero envNoViewport "C" 1000 5000 0).1) ∧
    countScrollsDown (applyHumanBehavior srcZero envNoViewport "C" 1000 5000 0).1 = 2 := by
  norm_num [applyHumanBehavior, randomDelay, humanScroll, scrollLoop, humanMouseMove,
    moveLoop, srcZero, envNoViewport, countMoves, countScrollsDown, delayFromNormal,
    jsFloor_eq_floor, jsRound_eq_floor, List.countP_append]
  simp only [String.reduceEq, reduceIte]
  norm_num [List.countP_cons]

/-- C7 amended: for every random source satisfying the Math.random() contract,
an Advanced (pattern C) plan contains at least one pointer move whenever the
page has a viewport — with no viewport it contains none — and in every case it
contains between 2 and 4 downward scroll actions and at most one upward
(reverse) scroll action. -/
theorem c7_advanced_plan_counts (src : RandSrc) (h : UnitRange src)
    (env : PageEnv) (lo hi : ℚ) (i : Nat) :
    (∀ vp, env.viewport = some vp →
        1 ≤ countMoves (applyHumanBehavior src env "C" lo hi i).1) ∧
    (env.viewport = none →
        countMoves (applyHumanBehavior src env "C" lo hi i).1 = 0) ∧
    2 ≤ countScrollsDown (applyHumanBehavior src env "C" lo hi i).1 ∧
    countScrollsDown (applyHumanBehavior src env "C" lo hi i).1 ≤ 4 ∧
    countScrollsUp (applyHumanBehavior src env "C" lo hi i).1 ≤ 1 := by
  obtain ⟨vpo, links⟩ := env
  cases vpo with
  | none =>
      refine ⟨?_, ?_, ?_, ?_, ?_⟩
      · intro vp hvp
        simp at hvp
      · intro _
        simp only [applyHumanBehavior, String.reduceEq, reduceIte]
        split <;> (try split) <;> (try split) <;>
          simp [countMoves_append, countMoves_randomDelay, countMoves_humanScroll,
            countMoves_humanMouseMove_none, countMoves_nil]
      · simp only [applyHumanBehavior, String.reduceEq, reduceIte]
        split <;> (try split) <;> (try split) <;>
          (simp [countScrollsDown_append, countScrollsDown_randomDelay,
            countScrollsDown_humanMouseMove, countScrollsDown_nil]
           exact (countScrollsDown_humanScroll src h _).1)
      · simp only [applyHumanBehavior, String.reduceEq, reduceIte]
        split <;> (try split) <;> (try split) <;>
          (simp [countScrollsDown_append, countScrollsDown_randomDelay,
            countScrollsDown_humanMouseMove, countScrollsDown_nil]
           exact (countScrollsDown_humanScroll src h _).2)
      · simp only [applyHumanBehavior, String.reduceEq, reduceIte]
        split <;> (try split) <;> (try split) <;>
          (simp [countScrollsUp_append, countScrollsUp_randomDelay,
            countScrollsUp_humanMouseMove, countScrollsUp_nil]
           exact countScrollsUp_humanScroll src h _)
  | some vp =>
      refine ⟨?_, ?_, ?_, ?_, ?_⟩
      · intro vp2 hvp
        simp only [applyHumanBehavior, String.reduceEq, reduceIte]
        split <;> (try split) <;> (try split) <;>
          (simp [countMoves_append, countMoves_randomDelay, countMoves_humanScroll,
            countMoves_nil]
           first
           | exact le_trans (countMoves_humanMouseMove_some_pos src vp _ _ _)
               (Nat.le_add_right _ _)
           | exact countMoves_humanMouseMove_some_pos src vp _ _ _)
      · intro h0
        simp at h0
      · simp only [applyHumanBehavior, String.reduceEq, reduceIte]
        split <;> (try split) <;> (try split) <;>
          (simp [countScrollsDown_append, countScrollsDown_randomDelay,
            countScrollsDown_humanMouseMove, countScrollsDown_nil]
           exact (countScrollsDown_humanScroll src h _).1)
      · simp only [applyHumanBehavior, String.reduceEq, reduceIte]
        split <;> (try split) <;> (try split) <;>
          (simp [countScrollsDown_append, countScrollsDown_randomDelay,
            countScrollsDown_humanMouseMove, countScrollsDown_nil]
           exact (countScrollsDown_humanScroll src h _).2)
      · simp only [applyHumanBehavior, String.reduceEq, reduceIte]
        split <;> (try split) <;> (try split) <;>
          (simp [countScrollsUp_append, countScrollsUp_randomDelay,
            countScrollsUp_humanMouseMove, countScrollsUp_nil]
           exact countScrollsUp_humanScroll src h _)

end BanTemplate

namespace BanTemplate

/-- C7 witness: the amended theorem applied to the concrete half-stream source
and a 1920 by 1080 viewport. -/
theorem c7_advanced_plan_counts_witness :
    1 ≤ countMoves (applyHumanBehavior srcHalf
        { viewport := some { width := 1920, height := 1080 }, links := [] }
        "C" 1000 5000 0).1 ∧
    2 ≤ countScrollsDown (applyHumanBehavior srcHalf
        { viewport := some { width := 1920, height := 1080 }, links := [] }
        "C" 1000 5000 0).1 := by
  have hu : UnitRange srcHalf := by
    intro j
    constructor <;> norm_num [srcHalf]
  have h := c7_advanced_plan_counts srcHalf hu
      { viewport := some { width := 1920, height := 1080 }, links := [] } 1000 5000 0
  exact ⟨h.1 _ rfl, h.2.2.1⟩

/-- Helper: the clamp to the unit interval is symmetric about one half: the
clamped values of one half plus a and one half minus a always sum to one. -/
theorem clamp01_add_symm (a : ℚ) :
    max 0 (min 1 ((1:ℚ)/2 + a)) + max 0 (min 1 ((1:ℚ)/2 - a)) = 1 := by
  rcases le_total a (-(1/2)) with h1 | h1
  · rw [min_eq_right (by linarith : ((1:ℚ)/2 + a) ≤ 1),
        max_eq_left (by linarith : ((1:ℚ)/2 + a) ≤ 0),
        min_eq_left (by linarith : (1:ℚ) ≤ 1/2 - a)]
    norm_num
  · rcases le_total ((1:ℚ)/2) a with h2 | h2
    · rw [min_eq_left (by linarith : (1:ℚ) ≤ 1/2 + a),
          min_eq_right (by linarith : ((1:ℚ)/2 - a) ≤ 1),
          max_eq_left (by linarith : ((1:ℚ)/2 - a) ≤ 0)]
      norm_num
    · rw [min_eq_right (by linarith : ((1:ℚ)/2 + a) ≤ 1),
          max_eq_right (by linarith : (0:ℚ) ≤ 1/2 + a),
          min_eq_right (by linarith : ((1:ℚ)/2 - a) ≤ 1),
          max_eq_right (by linarith : (0:ℚ) ≤ 1/2 - a)]
      linarith

/-- Helper: the clamped normal-to-delay map always lands inside the range. -/
theorem delayFromNormal_mem (lo hi z : ℚ) (h : lo ≤ hi) :
    lo ≤ delayFromNormal lo hi z ∧ delayFromNormal lo hi z ≤ hi := by
  simp only [delayFromNormal]
  constructor
  · have h0 : (0:ℚ) ≤ max 0 (min 1 (z * (2/10) + 5/10)) := le_max_left _ _
    have := mul_nonneg h0 (by linarith : (0:ℚ) ≤ hi - lo)
    linarith
  · have h1 : max 0 (min 1 (z * (2/10) + 5/10)) ≤ 1 :=
      max_le (by norm_num) (min_le_left _ _)
    have h0 : (0:ℚ) ≤ max 0 (min 1 (z * (2/10) + 5/10)) := le_max_left _ _
    have := mul_le_of_le_one_left (by linarith : (0:ℚ) ≤ hi - lo) h1
    linarith

/-- Helper: rounding keeps a value between two integer bounds inside them. -/
theorem jsRound_mem (lo hi : ℤ) (q : ℚ) (h1 : (lo:ℚ) ≤ q) (h2 : q ≤ (hi:ℚ)) :
    lo ≤ jsRound q ∧ jsRound q ≤ hi := by
  rw [jsRound_eq_floor]
  constructor
  · rw [Int.le_floor]
    linarith
  · have hlt : ⌊q + 1/2⌋ < hi + 1 := by
      rw [Int.floor_lt]
      push_cast
      linarith
    omega

/-- Helper: the delay map sends opposite normal samples to values that sum to
the two range endpoints, so it is symmetric about the midpoint. -/
theorem delayFromNormal_symm (lo hi z : ℚ) :
    delayFromNormal lo hi z + delayFromNormal lo hi (-z) = lo + hi := by
  have hc := clamp01_add_symm (z * (2/10))
  simp only [delayFromNormal]
  have e1 : -z * (2/10) + 5/10 = (1:ℚ)/2 - z * (2/10) := by ring
  have e2 : z * (2/10) + 5/10 = (1:ℚ)/2 + z * (2/10) := by ring
  rw [e1, e2]
  linear_combination (hi - lo) * hc

/-- Helper: the delay map sends the zero normal sample to the midpoint. -/
theorem delayFromNormal_center (lo hi : ℚ) :
    delayFromNormal lo hi 0 = (lo + hi) / 2 := by
  simp only [delayFromNormal]
  rw [show (0:ℚ) * (2/10) + 5/10 = 1/2 by norm_num,
      min_eq_right (by norm_num : (1:ℚ)/2 ≤ 1),
      max_eq_right (by norm_num : (0:ℚ) ≤ 1/2)]
  ring

/-- C9: for every normal sample (hence for every pair of uniform samples fed
through the Box-Muller expression) and all integer bounds lo up to hi, the
delay lands in [lo, hi] both before and after rounding; the map has mean
fraction one half of the range (the zero sample maps to the midpoint) and is
exactly symmetric about that midpoint, which is what centres the sample mean
at the midpoint rather than at either bound; and randomDelay emits exactly one
wait of the rounded delay. -/
theorem c9_randomDelay_range_and_symmetry (lo hi : ℤ) (h : lo ≤ hi) (z : ℚ)
    (src : RandSrc) (i : Nat) :
    ((lo:ℚ) ≤ delayFromNormal lo hi z ∧ delayFromNormal lo hi z ≤ (hi:ℚ)) ∧
    (lo ≤ jsRound (delayFromNormal lo hi z) ∧ jsRound (delayFromNormal lo hi z) ≤ hi) ∧
    delayFromNormal lo hi 0 = ((lo:ℚ) + hi) / 2 ∧
    delayFromNormal lo hi z + delayFromNormal lo hi (-z) = (lo:ℚ) + hi ∧
    (randomDelay src lo hi i).1 =
      [Action.wait ((jsRound (delayFromNormal lo hi
          (src.normalFn (src.stream i) (src.stream (i + 1)))) : ℤ) : ℚ)] := by
  have hq : (lo:ℚ) ≤ (hi:ℚ) := by exact_mod_cast h
  have hm := delayFromNormal_mem lo hi z hq
  exact ⟨hm, jsRound_mem lo hi _ hm.1 hm.2, delayFromNormal_center _ _,
    delayFromNormal_symm _ _ _, rfl⟩

/-- C9 witness: the in-range bounds instantiated at lo 1000, hi 5000 and
normal sample 3. -/
theorem c9_randomDelay_range_witness :
    (1000:ℤ) ≤ jsRound (delayFromNormal 1000 5000 3) ∧
    jsRound (delayFromNormal 1000 5000 3) ≤ 5000 := by
  have h := c9_randomDelay_range_and_symmetry 1000 5000 (by decide) 3 srcZero 0
  exact_mod_cast h.2.1

end BanTemplate

namespace BanTemplate

/-- Helper: the curve polynomial at parameter zero is the start control. -/
theorem cubicBezier_zero (p0 p1 p2 p3 : ℚ) : cubicBezier 0 p0 p1 p2 p3 = p0 := by
  simp only [cubicBezier]
  ring

/-- Helper: the curve polynomial at parameter one is the end control. -/
theorem cubicBezier_one (p0 p1 p2 p3 : ℚ) : cubicBezier 1 p0 p1 p2 p3 = p3 := by
  simp only [cubicBezier]
  ring

/-- Helper: the i-th sampled point is the rounded curve value at i / steps. -/
theorem bezierSample_get (sx sy ex ey c1x c1y c2x c2y : ℚ) (steps i : Nat)
    (hi : i < (bezierSample sx sy ex ey c1x c1y c2x c2y steps).length) :
    (bezierSample sx sy ex ey c1x c1y c2x c2y steps).get ⟨i, hi⟩ =
      { x := jsRound (cubicBezier ((i:ℚ)/(steps:ℚ)) sx c1x c2x ex)
        y := jsRound (cubicBezier ((i:ℚ)/(steps:ℚ)) sy c1y c2y ey) } := by
  simp [bezierSample, List.get_eq_getElem, List.getElem_map, List.getElem_range]

/-- C8 counterexample: with declared start point (1/2, 0), the first emitted
point of the sampled curve has x-coordinate 1, the Math.round image of 1/2 —
the sequence does not begin exactly at the declared start point. -/
theorem c8_counterexample_rounded_start :
    ((generateBezierPoints srcHalf (1/2) 0 10 10 2 0).1.head?.map Pt.x) = some 1 ∧
    (1:ℚ) ≠ (1/2 : ℚ) := by
  constructor
  · norm_num [generateBezierPoints, bezierSample, srcHalf, cubicBezier,
      jsRound_eq_floor, List.range_succ]
  · norm_num

/-- C8 amended: every sampled Bezier sequence has steps + 1 points; its first
point is the coordinatewise Math.round of the declared start and its last
point the coordinatewise Math.round of the declared end (so start and end are
exact precisely up to integer rounding); the i-th point is the rounded curve
value at parameter i / steps, these parameters are strictly increasing, and
they lie strictly between 0 and 1 for the intermediate points; the step count
used by humanMouseMove is drawn from the bounded range 10 to 29. -/
theorem c8_bezier_structure (sx sy ex ey c1x c1y c2x c2y : ℚ) (steps : Nat)
    (h : 0 < steps) :
    (bezierSample sx sy ex ey c1x c1y c2x c2y steps).length = steps + 1 ∧
    (∀ (hl : 0 < (bezierSample sx sy ex ey c1x c1y c2x c2y steps).length),
        (bezierSample sx sy ex ey c1x c1y c2x c2y steps).get ⟨0, hl⟩ =
          { x := jsRound sx, y := jsRound sy }) ∧
    (∀ (hl : steps < (bezierSample sx sy ex ey c1x c1y c2x c2y steps).length),
        (bezierSample sx sy ex ey c1x c1y c2x c2y steps).get ⟨steps, hl⟩ =
          { x := jsRound ex, y := jsRound ey }) ∧
    (∀ (i : Nat) (hi : i < (bezierSample sx sy ex ey c1x c1y c2x c2y steps).length),
        (bezierSample sx sy ex ey c1x c1y c2x c2y steps).get ⟨i, hi⟩ =
          { x := jsRound (cubicBezier ((i:ℚ)/(steps:ℚ)) sx c1x c2x ex)
            y := jsRound (cubicBezier ((i:ℚ)/(steps:ℚ)) sy c1y c2y ey) }) ∧
    (∀ i j : Nat, i < j → j ≤ steps → (i:ℚ)/(steps:ℚ) < (j:ℚ)/(steps:ℚ)) ∧
    (∀ i : Nat, 0 < i → i < steps →
        0 < (i:ℚ)/(steps:ℚ) ∧ (i:ℚ)/(steps:ℚ) < 1) ∧
    (∀ (src : RandSrc) (k : Nat),
        (generateBezierPoints src sx sy ex ey steps k).1.length = steps + 1) ∧
    (∀ r : ℚ, 0 ≤ r → r < 1 →
        10 ≤ (jsFloor (r * 20)).toNat + 10 ∧ (jsFloor (r * 20)).toNat + 10 ≤ 29) := by
  have hs0 : (steps:ℚ) ≠ 0 := Nat.cast_ne_zero.2 h.ne'
  have hsp : (0:ℚ) < (steps:ℚ) := Nat.cast_pos.2 h
  refine ⟨bezierSample_length sx sy ex ey c1x c1y c2x c2y steps, ?_, ?_, ?_, ?_, ?_, ?_, ?_⟩
  · intro hl
    rw [bezierSample_get]
    simp [cubicBezier_zero]
  · intro hl
    rw [bezierSample_get]
    rw [div_self hs0, cubicBezier_one, cubicBezier_one]
  · intro i hi
    exact bezierSample_get sx sy ex ey c1x c1y c2x c2y steps i hi
  · intro i j hij hjs
    exact (div_lt_div_iff_of_pos_right hsp).2 (by exact_mod_cast hij)
  · intro i hi0 his
    constructor
    · exact div_pos (by exact_mod_cast hi0) hsp
    · exact (div_lt_one hsp).2 (by exact_mod_cast his)
  · intro src k
    simp only [generateBezierPoints]
    rw [bezierSample_length]
  · intro r h0 h1
    constructor
    · omega
    · have hlt : jsFloor (r * 20) < 20 := by
        rw [jsFloor_eq_floor]
        exact Int.floor_lt.2 (by push_cast; nlinarith)
      have : (jsFloor (r * 20)).toNat ≤ 19 := by
        rw [Int.toNat_le]
        omega
      omega

/-- C8 witness: the structure theorem applied at a concrete curve with two
steps. -/
theorem c8_bezier_structure_witness :
    (bezierSample 0 0 10 10 3 3 7 7 2).length = 2 + 1 :=
  (c8_bezier_structure 0 0 10 10 3 3 7 7 2 (by decide)).1

end BanTemplate
